import Mathlib

/-!
Verification of the OpenDeep layer-construction code
(`opendeep/Tutorials/Tutorial01_Modular_DAE.py` and
`opendeep/models/single_layer/convolutional.py`) against its
natural-language specification.

The Python code is shallowly embedded: layer constructors become Lean
functions from their (embedded) arguments to `Except String Layer`, where
`Except.error` models a raised Python exception.  Symbolic Theano tensors
become a deep expression type `Expr`; configuration values become the
Python-value type `PyVal` with Python truthiness, so that the pervasive
`x or y` resolution idiom of the source is modelled exactly.
-/

namespace OpenDeep

/-- Python values that flow through the layer constructors: `None`,
ints, floats (modelled as rationals — they are only stored and compared,
never computed with), strings, tuples/arrays of ints (shapes), pairs,
1-tuples, and opaque callables identified by name. -/
inductive PyVal where
  | vnone
  | vbool (b : Bool)
  | vint (n : Int)
  | vfloat (q : Rat)
  | vstr (s : String)
  | vints (l : List Int)
  | vpair (a b : PyVal)
  | vtup1 (a : PyVal)
  | vfun (nm : String)
  deriving DecidableEq, Repr

namespace PyVal

/-- Python truthiness: `None`, `0`, `0.0`, `""` and the empty tuple are
falsy; non-empty tuples and callables are truthy. -/
def truthy : PyVal → Bool
  | vnone => false
  | vbool b => b
  | vint n => n != 0
  | vfloat q => q != 0
  | vstr s => s != ""
  | vints l => !l.isEmpty
  | vpair _ _ => true
  | vtup1 _ => true
  | vfun _ => true

end PyVal

open PyVal

/-- The Python `a or b` expression (value-returning, short-circuit). -/
def pyOr (a b : PyVal) : PyVal :=
  if truthy a then a else b

/-- `d.get(key)` on a Python dict modelled as an association list:
the value when present, `None` when absent. -/
def dictGet (d : List (String × PyVal)) (key : String) : PyVal :=
  match d.lookup key with
  | some v => v
  | none => PyVal.vnone

/-- Modelled from the spec: the `Model` base-class `__init__` (not under
`src/`) combines the `defaults` dictionary with the optional `config`,
"Any parameter from the config will overwrite the defaults dictionary",
producing `self.args`. -/
def modelArgs (defaults : List (String × PyVal)) (config : Option (List (String × PyVal))) :
    List (String × PyVal) :=
  match config with
  | none => defaults
  | some cfg => cfg ++ defaults

/-- Symbolic Theano graph nodes, as the layer constructors build them.
Each constructor records exactly the arguments the source passes to the
corresponding Theano/opendeep helper. -/
inductive Expr where
  | fmatrix (nm : String)
  | ftensor3 (nm : String)
  | ftensor4 (nm : String)
  | getWeightsUniform (shape : PyVal) (interval : PyVal) (nm : String)
  | getWeightsGaussian (shape : PyVal) (mean std : PyVal) (nm : String)
  | getBias (shape : PyVal) (init : PyVal) (nm : String)
  | saltAndPepper (input : Expr) (level : PyVal)
  | dot (a b : Expr)
  | transpose (a : Expr)
  | add (a b : Expr)
  | applyAct (f : PyVal) (a : Expr)
  | applyCost (f : PyVal) (output target : Expr)
  | convOp (f : PyVal) (input kerns : Expr) (subsample imageShape filterShape borderMode : PyVal)
  | addBias1d (conved : Expr) (b : Expr)
  | addBias2d (conved : Expr) (b : Expr)
  | sliceAxis2 (a : Expr) (lo hi : Int)
  | sliceAxis23 (a : Expr) (xlo xhi ylo yhi : Int)
  | sliceChan (a : Expr) (lo hi : Option Int)
  | concatChan (a b : Expr)
  | maxPool (a : Expr) (ws st : PyVal)
  | lrnOp (a : Expr)
  deriving DecidableEq, Repr

/-- Truthiness of an optional hook sequence: Python's `if params_hook:`
is false for `None` and for an empty sequence. -/
def seqTruthy (h : Option (List Expr)) : Bool :=
  match h with
  | none => false
  | some l => !l.isEmpty

/-!  ### Denoising autoencoder (Tutorial01_Modular_DAE.py)  -/

/-- The `_defaults` dictionary of `DenoisingAutoencoder`. -/
def daeDefaults : List (String × PyVal) :=
  [("input_size", .vint (28*28)),
   ("hidden_size", .vint 1000),
   ("corruption_level", .vfloat (2/5)),
   ("hidden_activation", .vstr "tanh"),
   ("visible_activation", .vstr "sigmoid"),
   ("cost_function", .vstr "binary_crossentropy")]

/-- The state a built `DenoisingAutoencoder` holds: inputs, params,
prediction-path hiddens, reconstruction output, training cost, and the
compiled predict function (modelled as its declared inputs/outputs). -/
structure DAE where
  inputs : List Expr
  params : List Expr
  hiddens : Expr
  recon_predict : Expr
  train_cost : Expr
  f_predict_inputs : List Expr
  f_predict_outputs : Expr
  deriving DecidableEq, Repr

/-- `DenoisingAutoencoder.__init__`, line by line.  Hooks are `(shape,
tensor)` pairs (always truthy when present, like a non-empty Python
tuple); `params_hook` is an optional sequence whose truthiness follows
Python.  A failed `assert` becomes `Except.error`. -/
def daeInit (config : Option (List (String × PyVal)) := none)
    (inputs_hook : Option (PyVal × Expr) := none)
    (hiddens_hook : Option (PyVal × Expr) := none)
    (params_hook : Option (List Expr) := none)
    (input_size : PyVal := .vnone) (hidden_size : PyVal := .vnone)
    (corruption_level : PyVal := .vnone)
    (hidden_activation : PyVal := .vnone) (visible_activation : PyVal := .vnone)
    (cost_function : PyVal := .vnone) : Except String DAE :=
  let args := modelArgs daeDefaults config
  let input_size :=
    match inputs_hook with
    | some hk => hk.1
    | none => pyOr input_size (dictGet args "input_size")
  let hidden_size :=
    match hiddens_hook with
    | some hk => hk.1
    | none => pyOr hidden_size (dictGet args "hidden_size")
  let corruption_level := pyOr corruption_level (dictGet args "corruption_level")
  let hidden_act_name := pyOr hidden_activation (dictGet args "hidden_activation")
  let visible_act_name := pyOr visible_activation (dictGet args "visible_activation")
  let cost_func_name := pyOr cost_function (dictGet args "cost_function")
  let x : Expr :=
    match inputs_hook with
    | some hk => hk.2
    | none => .fmatrix "X"
  let inputs := [x]
  (if seqTruthy params_hook then
    match params_hook with
    | some l =>
      if h : l.length = 3 then
        .ok (l.get ⟨0, by omega⟩, l.get ⟨1, by omega⟩, l.get ⟨2, by omega⟩)
      else
        .error "AssertionError: Not correct number of params to DAE, needs 3!"
    | none => .error "unreachable"
  else
    .ok (.getWeightsUniform (.vpair input_size hidden_size) .vnone "W",
         .getBias input_size .vnone "b0",
         .getBias hidden_size .vnone "b1") : Except String (Expr × Expr × Expr)).map
  fun (W, b0, b1) =>
    let params := [W, b0, b1]
    let corrupted_input := Expr.saltAndPepper x corruption_level
    let hiddens := Expr.applyAct hidden_act_name (.add (.dot corrupted_input W) b1)
    let reconstruction := Expr.applyAct visible_act_name (.add (.dot hiddens (.transpose W)) b0)
    let train_cost := Expr.applyCost cost_func_name reconstruction x
    let self_hiddens :=
      match hiddens_hook with
      | some hk => hk.2
      | none => Expr.applyAct hidden_act_name (.add (.dot x W) b1)
    let recon_predict := Expr.applyAct visible_act_name (.add (.dot self_hiddens (.transpose W)) b0)
    let f_predict_inputs :=
      match hiddens_hook with
      | some _ => [self_hiddens]
      | none => [x]
    { inputs := inputs, params := params, hiddens := self_hiddens,
      recon_predict := recon_predict, train_cost := train_cost,
      f_predict_inputs := f_predict_inputs, f_predict_outputs := recon_predict }

/-- `DenoisingAutoencoder.get_inputs`. -/
def DAE.get_inputs (d : DAE) : List Expr := d.inputs

/-- `DenoisingAutoencoder.get_hiddens`. -/
def DAE.get_hiddens (d : DAE) : Expr := d.hiddens

/-- `DenoisingAutoencoder.get_outputs`. -/
def DAE.get_outputs (d : DAE) : Expr := d.recon_predict

/-- `DenoisingAutoencoder.get_params`. -/
def DAE.get_params (d : DAE) : List Expr := d.params

/-- `DenoisingAutoencoder.get_train_cost`. -/
def DAE.get_train_cost (d : DAE) : Expr := d.train_cost

/-!  ### Helpers shared by the convolutional layers  -/

/-- Python `v[i]` on a tuple/array of ints; `IndexError` out of range,
`TypeError` on a non-sequence. -/
def pyIndex (v : PyVal) (i : Nat) : Except String PyVal :=
  match v with
  | .vints l =>
    match l[i]? with
    | some n => .ok (.vint n)
    | none => .error "IndexError: index out of range"
  | _ => .error "TypeError: object is not subscriptable"

/-- Python `v[lo:hi]` on a tuple/array of ints (slices clamp, never fail). -/
def pySlice (v : PyVal) (lo hi : Nat) : Except String PyVal :=
  match v with
  | .vints l => .ok (.vints ((l.drop lo).take (hi - lo)))
  | _ => .error "TypeError: object is not subscriptable"

/-- Extract the integer from an int value (the uses in the source only
reach this on genuine ints). -/
def pyToInt (v : PyVal) : Except String Int :=
  match v with
  | .vint n => .ok n
  | _ => .error "TypeError: an integer is required"

/-- ASCII lower-casing of one character. -/
def charLower (c : Char) : Char :=
  if 'A' ≤ c ∧ c ≤ 'Z' then Char.ofNat (c.toNat + 32) else c

/-- ASCII lower-casing of a string (structural, so proofs can evaluate it). -/
def strLower (s : String) : String :=
  String.mk (s.data.map charLower)

/-- Python `v.lower()`: defined on strings only. -/
def pyLower (v : PyVal) : Except String String :=
  match v with
  | .vstr s => .ok (strLower s)
  | _ => .error "AttributeError: object has no attribute lower"

/-- The `isinstance(activation_name, basestring)` branch shared by the
convolutional layers: a string goes through `get_activation_function`
(kept as its name tag), anything else must be callable or the `assert`
fails. -/
def resolveActivation (v : PyVal) : Except String PyVal :=
  match v with
  | .vstr s => .ok (.vstr s)
  | .vfun f => .ok (.vfun f)
  | _ => .error "AssertionError: Activation function either needs to be a string name or callable!"

/-- `numpy.asarray` on a shape tuple (the source only applies it to int
tuples/arrays). -/
def asIntArray (v : PyVal) : Except String (List Int) :=
  match v with
  | .vints l => .ok l
  | _ => .error "ValueError: could not convert object to int array"

/-- Indexing into an int array (numpy `a[i]`). -/
def arrGet (l : List Int) (i : Nat) : Except String Int :=
  match l[i]? with
  | some n => .ok n
  | none => .error "IndexError: index out of range"

/-!  ### Conv1D (convolutional.py lines 60-180)  -/

/-- The `defaults` dictionary of `Conv1D`. -/
def conv1dDefaults : List (String × PyVal) :=
  [("border_mode", .vstr "valid"),
   ("weights_init", .vstr "uniform"),
   ("weights_interval", .vstr "montreal"),
   ("weights_mean", .vint 0),
   ("weights_std", .vfloat (5/1000)),
   ("bias_init", .vfloat 0),
   ("activation", .vfun "rectifier"),
   ("convolution", .vfun "conv1d_mc0")]

/-- A built `Conv1D` layer: its input tensor, parameter list and output. -/
structure Conv1D where
  input : Expr
  params : List Expr
  output : Expr
  deriving DecidableEq, Repr

/-- `Conv1D.__init__`, line by line.  Note two idioms kept exactly from
the source: every option is resolved with Python `or` (`pyOr`), and in
the fresh-parameter branch the `uniform` test reads
`self.args.get('weights_init')` — the configured value — rather than the
resolved `weights_init`. -/
def conv1dInit (inputs_hook : Option (PyVal × Expr))
    (params_hook : Option (List Expr) := none)
    (input_shape : PyVal := .vnone) (filter_shape : PyVal := .vnone)
    (stride : PyVal := .vnone)
    (weights_init : PyVal := .vnone) (weights_interval : PyVal := .vnone)
    (weights_mean : PyVal := .vnone) (weights_std : PyVal := .vnone)
    (bias_init : PyVal := .vnone)
    (border_mode : PyVal := .vnone) (activation : PyVal := .vnone)
    (convolution : PyVal := .vnone)
    (config : Option (List (String × PyVal)) := none) : Except String Conv1D := do
  let args := modelArgs conv1dDefaults config
  let (input_shape, input) :=
    match inputs_hook with
    | some hk => (pyOr hk.1 (pyOr input_shape (dictGet args "input_shape")), hk.2)
    | none => (pyOr input_shape (dictGet args "input_shape"), Expr.ftensor3 "X")
  let activation_name := pyOr activation (dictGet args "activation")
  let activation_func ← resolveActivation activation_name
  let filter_shape := pyOr filter_shape (dictGet args "filter_shape")
  let num_filters ← pyIndex filter_shape 0
  let filter_length ← pyIndex filter_shape 2
  let stride := pyOr stride (dictGet args "stride")
  let border_mode := pyOr border_mode (dictGet args "border_mode")
  let convolution := pyOr convolution (dictGet args "convolution")
  let weights_init := pyOr weights_init (dictGet args "weights_init")
  let weights_interval := pyOr weights_interval (dictGet args "weights_interval")
  let weights_mean := pyOr weights_mean (dictGet args "weights_mean")
  let weights_std := pyOr weights_std (dictGet args "weights_std")
  let (W, b) ←
    if seqTruthy params_hook then
      match params_hook with
      | some l =>
        if h : l.length = 2 then
          pure (l.get ⟨0, by omega⟩, l.get ⟨1, by omega⟩)
        else
          Except.error "AssertionError: Expected 2 params (W and b) for Conv1D!"
      | none => Except.error "unreachable"
    else do
      let wlow ← pyLower weights_init
      let W ←
        if wlow = "gaussian" then
          pure (Expr.getWeightsGaussian filter_shape weights_mean weights_std "W")
        else do
          let clow ← pyLower (dictGet args "weights_init")
          if clow = "uniform" then
            pure (Expr.getWeightsUniform filter_shape weights_interval "W")
          else
            Except.error "NotImplementedError: Did not recognize weights_init! Pleas try gaussian or uniform"
      pure (W, Expr.getBias (.vtup1 num_filters) bias_init "b")
  let params := [W, b]
  let conved ←
    if border_mode = .vstr "valid" || border_mode = .vstr "full" then
      pure (Expr.convOp convolution input W (.vtup1 stride) input_shape filter_shape border_mode)
    else if border_mode = .vstr "same" then do
      let conved := Expr.convOp convolution input W (.vtup1 stride) input_shape filter_shape (.vstr "full")
      let fl ← pyToInt filter_length
      let shift := Int.fdiv (fl - 1) 2
      let ext ← pyToInt (← pyIndex input_shape 2)
      pure (Expr.sliceAxis2 conved shift (ext + shift))
    else
      Except.error "RuntimeError: Invalid border mode"
  pure { input := input, params := params,
         output := Expr.applyAct activation_func (.addBias1d conved b) }

/-- `Conv1D.get_inputs`. -/
def Conv1D.get_inputs (c : Conv1D) : List Expr := [c.input]

/-- `Conv1D.get_outputs`. -/
def Conv1D.get_outputs (c : Conv1D) : Expr := c.output

/-- `Conv1D.get_params`. -/
def Conv1D.get_params (c : Conv1D) : List Expr := c.params

/-!  ### Conv2D (convolutional.py lines 183-304)  -/

/-- The `defaults` dictionary of `Conv2D`. -/
def conv2dDefaults : List (String × PyVal) :=
  [("border_mode", .vstr "valid"),
   ("weights_init", .vstr "uniform"),
   ("weights_interval", .vstr "montreal"),
   ("weights_mean", .vint 0),
   ("weights_std", .vfloat (5/1000)),
   ("bias_init", .vfloat 0),
   ("activation", .vfun "rectifier"),
   ("convolution", .vfun "conv2d")]

/-- A built `Conv2D` layer. -/
structure Conv2D where
  input : Expr
  params : List Expr
  output : Expr
  deriving DecidableEq, Repr

/-- `Conv2D.__init__`, line by line.  The source computes
`filter_size = filter_shape[2:3]` — a slice of length one — and the
`same` border mode later reads `filter_size[1]`, which the embedding
faithfully reproduces. -/
def conv2dInit (inputs_hook : Option (PyVal × Expr))
    (params_hook : Option (List Expr) := none)
    (input_shape : PyVal := .vnone) (filter_shape : PyVal := .vnone)
    (strides : PyVal := .vnone)
    (weights_init : PyVal := .vnone) (weights_interval : PyVal := .vnone)
    (weights_mean : PyVal := .vnone) (weights_std : PyVal := .vnone)
    (bias_init : PyVal := .vnone)
    (border_mode : PyVal := .vnone) (activation : PyVal := .vnone)
    (convolution : PyVal := .vnone)
    (config : Option (List (String × PyVal)) := none) : Except String Conv2D := do
  let args := modelArgs conv2dDefaults config
  let (input_shape, input) :=
    match inputs_hook with
    | some hk => (pyOr hk.1 (pyOr input_shape (dictGet args "input_shape")), hk.2)
    | none => (pyOr input_shape (dictGet args "input_shape"), Expr.ftensor4 "X")
  let activation_name := pyOr activation (dictGet args "activation")
  let activation_func ← resolveActivation activation_name
  let filter_shape := pyOr filter_shape (dictGet args "filter_shape")
  let num_filters ← pyIndex filter_shape 0
  let filter_size ← pySlice filter_shape 2 3
  let strides := pyOr strides (dictGet args "strides")
  let border_mode := pyOr border_mode (dictGet args "border_mode")
  let convolution := pyOr convolution (dictGet args "convolution")
  let weights_init := pyOr weights_init (dictGet args "weights_init")
  let weights_interval := pyOr weights_interval (dictGet args "weights_interval")
  let weights_mean := pyOr weights_mean (dictGet args "weights_mean")
  let weights_std := pyOr weights_std (dictGet args "weights_std")
  let (W, b) ←
    if seqTruthy params_hook then
      match params_hook with
      | some l =>
        if h : l.length = 2 then
          pure (l.get ⟨0, by omega⟩, l.get ⟨1, by omega⟩)
        else
          Except.error "AssertionError: Expected 2 params (W and b) for Conv2D!"
      | none => Except.error "unreachable"
    else do
      let wlow ← pyLower weights_init
      let W ←
        if wlow = "gaussian" then
          pure (Expr.getWeightsGaussian filter_shape weights_mean weights_std "W")
        else do
          let clow ← pyLower (dictGet args "weights_init")
          if clow = "uniform" then
            pure (Expr.getWeightsUniform filter_shape weights_interval "W")
          else
            Except.error "NotImplementedError: Did not recognize weights_init! Pleas try gaussian or uniform"
      pure (W, Expr.getBias (.vtup1 num_filters) bias_init "b")
  let params := [W, b]
  let conved ←
    if border_mode = .vstr "valid" || border_mode = .vstr "full" then
      pure (Expr.convOp convolution input W strides input_shape filter_shape border_mode)
    else if border_mode = .vstr "same" then do
      let conved := Expr.convOp convolution input W strides input_shape filter_shape (.vstr "full")
      let fx ← pyToInt (← pyIndex filter_size 0)
      let shift_x := Int.fdiv (fx - 1) 2
      let fy ← pyToInt (← pyIndex filter_size 1)
      let shift_y := Int.fdiv (fy - 1) 2
      let ext_x ← pyToInt (← pyIndex input_shape 2)
      let ext_y ← pyToInt (← pyIndex input_shape 3)
      pure (Expr.sliceAxis23 conved shift_x (ext_x + shift_x) shift_y (ext_y + shift_y))
    else
      Except.error "RuntimeError: Invalid border mode"
  pure { input := input, params := params,
         output := Expr.applyAct activation_func (.addBias2d conved b) }

/-- `Conv2D.get_inputs`. -/
def Conv2D.get_inputs (c : Conv2D) : List Expr := [c.input]

/-- `Conv2D.get_outputs`. -/
def Conv2D.get_outputs (c : Conv2D) : Expr := c.output

/-- `Conv2D.get_params`. -/
def Conv2D.get_params (c : Conv2D) : List Expr := c.params

/-!  ### ConvPoolLayer (convolutional.py lines 329-492)  -/

/-- The `defaults` dictionary of `ConvPoolLayer`. -/
def convPoolDefaults : List (String × PyVal) :=
  [("filter_shape", .vints [96, 3, 11, 11]),
   ("convstride", .vint 4),
   ("padsize", .vint 0),
   ("group", .vint 1),
   ("poolsize", .vint 3),
   ("poolstride", .vint 2),
   ("bias_init", .vint 0),
   ("local_response_normalization", .vbool false),
   ("convolution", .vfun "conv2d"),
   ("activation", .vstr "rectifier")]

/-- Python `self.poolsize != 1` (numeric comparison across int/float). -/
def pyNeOne (v : PyVal) : Bool :=
  match v with
  | .vint n => n != 1
  | .vfloat q => q != 1
  | _ => true

/-- A built `ConvPoolLayer`: the stored (possibly halved) shapes, the
channel count read from the original input shape, the resolved group,
the parameter list and the output graph. -/
structure ConvPool where
  input : Expr
  input_shape : List Int
  filter_shape : List Int
  channel : Int
  group : Int
  params : List Expr
  output : Expr
  deriving DecidableEq, Repr

/-- `ConvPoolLayer.build_computation_graph`, taking the fields the
method reads from `self`.  The cudnn and non-cudnn pooling calls build
the same pooling node shape-wise and are modelled by one constructor. -/
def convPoolGraph (input : Expr) (convolution : PyVal) (convstride padsize : PyVal)
    (channel : Int) (group : Int) (W b W0 b0 W1 b1 : Expr)
    (activation_func : PyVal) (poolsize poolstride : PyVal) : Expr :=
  let conv_out :=
    if group = 1 then
      Expr.addBias2d
        (Expr.convOp convolution input W (.vpair convstride convstride) .vnone .vnone
          (.vpair padsize padsize)) b
    else
      let conv_out0 :=
        Expr.addBias2d
          (Expr.convOp convolution (.sliceChan input none (some (Int.fdiv channel 2))) W0
            (.vpair convstride convstride) .vnone .vnone (.vpair padsize padsize)) b0
      let conv_out1 :=
        Expr.addBias2d
          (Expr.convOp convolution (.sliceChan input (some (Int.fdiv channel 2)) none) W1
            (.vpair convstride convstride) .vnone .vnone (.vpair padsize padsize)) b1
      Expr.concatChan conv_out0 conv_out1
  let output := Expr.applyAct activation_func conv_out
  if pyNeOne poolsize then
    Expr.maxPool output (.vpair poolsize poolsize) (.vpair poolstride poolstride)
  else
    output

/-- `ConvPoolLayer.__init__`, line by line.  In the `group == 2` branch
the stored `filter_shape[0]`, `filter_shape[1]`, `input_shape[0]` and
`input_shape[1]` are integer-halved in place before parameters are
allocated (Python 2 `/` on numpy int arrays is floor division), and a
supplied 4-element `params_hook` `(W0, W1, b0, b1)` is stored as
`params = [W0, b0, W1, b1]`. -/
def convPoolInit (inputs_hook : Option (PyVal × Expr))
    (input_shape : PyVal := .vnone) (filter_shape : PyVal := .vnone)
    (convstride : PyVal := .vnone) (padsize : PyVal := .vnone)
    (group : PyVal := .vnone)
    (poolsize : PyVal := .vnone) (poolstride : PyVal := .vnone)
    (bias_init : PyVal := .vnone)
    (local_response_normalization : PyVal := .vnone)
    (convolution : PyVal := .vnone) (activation : PyVal := .vnone)
    (params_hook : Option (List Expr) := none)
    (config : Option (List (String × PyVal)) := none) : Except String ConvPool := do
  let args := modelArgs convPoolDefaults config
  let (input_shape, input) :=
    match inputs_hook with
    | some hk => (pyOr hk.1 (pyOr input_shape (dictGet args "input_shape")), hk.2)
    | none => (pyOr input_shape (dictGet args "input_shape"), Expr.ftensor4 "X")
  let activation_name := pyOr activation (dictGet args "activation")
  let activation_func ← resolveActivation activation_name
  let convolution := pyOr convolution (dictGet args "convolution")
  let filter_shape := pyOr filter_shape (dictGet args "filter_shape")
  let convstride := pyOr convstride (dictGet args "convstride")
  let padsize := pyOr padsize (dictGet args "padsize")
  let poolsize := pyOr poolsize (dictGet args "poolsize")
  let poolstride := pyOr poolstride (dictGet args "poolstride")
  let channel ← pyToInt (← pyIndex input_shape 1)
  let lrn := pyOr local_response_normalization (dictGet args "local_response_normalization")
  let group := pyOr group (dictGet args "group")
  let g ←
    if group = .vint 1 || group = .vint 2 then
      pyToInt group
    else
      Except.error "AssertionError: group argument needs to be 1 or 2 (1 for default conv2d)"
  let fsArr ← asIntArray filter_shape
  let isArr ← asIntArray input_shape
  let (fsArr, isArr, W, b, W0, b0, W1, b1, params) ←
    if g = 1 then do
      let (W, b) ←
        if seqTruthy params_hook then
          match params_hook with
          | some l =>
            if h : l.length = 2 then
              pure (l.get ⟨0, by omega⟩, l.get ⟨1, by omega⟩)
            else
              Except.error "AssertionError: Expected 2 params (W and b) for ConvPoolLayer!"
          | none => Except.error "unreachable"
        else do
          let fs0 ← arrGet fsArr 0
          pure (Expr.getWeightsGaussian (.vints fsArr) (.vint 0) (.vfloat (1/100)) "W",
                Expr.getBias (.vint fs0) bias_init "b")
      pure (fsArr, isArr, W, b, W, b, W, b, [W, b])
    else do
      let fs0 ← arrGet fsArr 0
      let fsArr := fsArr.set 0 (Int.fdiv fs0 2)
      let fs1 ← arrGet fsArr 1
      let fsArr := fsArr.set 1 (Int.fdiv fs1 2)
      let is0 ← arrGet isArr 0
      let isArr := isArr.set 0 (Int.fdiv is0 2)
      let is1 ← arrGet isArr 1
      let isArr := isArr.set 1 (Int.fdiv is1 2)
      let (W0, W1, b0, b1) ←
        if seqTruthy params_hook then
          match params_hook with
          | some l =>
            if h : l.length = 4 then
              pure (l.get ⟨0, by omega⟩, l.get ⟨1, by omega⟩,
                    l.get ⟨2, by omega⟩, l.get ⟨3, by omega⟩)
            else
              Except.error "AssertionError: params_hook length"
          | none => Except.error "unreachable"
        else do
          let fs0h ← arrGet fsArr 0
          pure (Expr.getWeightsGaussian (.vints fsArr) .vnone .vnone "W0",
                Expr.getWeightsGaussian (.vints fsArr) .vnone .vnone "W1",
                Expr.getBias (.vint fs0h) bias_init "b0",
                Expr.getBias (.vint fs0h) bias_init "b1")
      pure (fsArr, isArr, W0, b0, W0, b0, W1, b1, [W0, b0, W1, b1])
  let output := convPoolGraph input convolution convstride padsize channel g
    W b W0 b0 W1 b1 activation_func poolsize poolstride
  let output := if truthy lrn then Expr.lrnOp output else output
  pure { input := input, input_shape := isArr, filter_shape := fsArr,
         channel := channel, group := g, params := params, output := output }

/-- `ConvPoolLayer.get_inputs`. -/
def ConvPool.get_inputs (c : ConvPool) : List Expr := [c.input]

/-- `ConvPoolLayer.get_outputs`. -/
def ConvPool.get_outputs (c : ConvPool) : Expr := c.output

/-- `ConvPoolLayer.get_params`. -/
def ConvPool.get_params (c : ConvPool) : List Expr := c.params

/-!  ### Semantic observations on graphs  -/

/-- All corruption levels of `salt_and_pepper` nodes occurring in a
graph, in traversal order. -/
def noiseLevels : Expr → List PyVal
  | .saltAndPepper e lvl => lvl :: noiseLevels e
  | .dot a b => noiseLevels a ++ noiseLevels b
  | .transpose a => noiseLevels a
  | .add a b => noiseLevels a ++ noiseLevels b
  | .applyAct _ a => noiseLevels a
  | .applyCost _ o t => noiseLevels o ++ noiseLevels t
  | .convOp _ i k _ _ _ _ => noiseLevels i ++ noiseLevels k
  | .addBias1d a b => noiseLevels a ++ noiseLevels b
  | .addBias2d a b => noiseLevels a ++ noiseLevels b
  | .sliceAxis2 a _ _ => noiseLevels a
  | .sliceAxis23 a _ _ _ _ => noiseLevels a
  | .sliceChan a _ _ => noiseLevels a
  | .concatChan a b => noiseLevels a ++ noiseLevels b
  | .maxPool a _ _ => noiseLevels a
  | .lrnOp a => noiseLevels a
  | _ => []

/-- A graph is noise-free when no `salt_and_pepper` node occurs in it. -/
def noiseFree (e : Expr) : Bool :=
  (noiseLevels e).isEmpty

/-- Output-channel count of an allocated weight tensor (its shape's
first axis), when statically known. -/
def weightOutChannels : Expr → Option Int
  | .getWeightsGaussian (.vints l) _ _ _ => l[0]?
  | .getWeightsUniform (.vints l) _ _ => l[0]?
  | _ => none

/-- Channel count (axis 1, bc01 layout) of a graph node, when statically
known: a convolution produces one channel per kernel filter,
bias-addition/activation/pooling/normalization preserve channels, and
concatenation along the channel axis adds them. -/
def channelsOf : Expr → Option Int
  | .convOp _ _ k _ _ _ _ => weightOutChannels k
  | .addBias1d a _ => channelsOf a
  | .addBias2d a _ => channelsOf a
  | .applyAct _ a => channelsOf a
  | .concatChan a b =>
    match channelsOf a, channelsOf b with
    | some x, some y => some (x + y)
    | _, _ => none
  | .maxPool a _ _ => channelsOf a
  | .lrnOp a => channelsOf a
  | .sliceAxis2 a _ _ => channelsOf a
  | .sliceAxis23 a _ _ _ _ => channelsOf a
  | _ => none

/-- Whether a construction raised (`Except.error`). -/
def isErr {α : Type} : Except String α → Bool
  | .error _ => true
  | .ok _ => false

/-!  ### Theorems  -/

/-- Python `a or b` returns `a` when `a` is truthy. -/
theorem pyOr_pos {a : PyVal} (h : truthy a = true) (b : PyVal) : pyOr a b = a := by
  simp [pyOr, h]

/-- Python `a or b` returns `b` when `a` is falsy. -/
theorem pyOr_neg {a : PyVal} (h : truthy a = false) (b : PyVal) : pyOr a b = b := by
  simp [pyOr, h]

/-- C1.  Chaining: constructing any layer with
`inputs_hook = (shape, t)` makes `get_inputs()` return exactly the
hooked tensor `t`, identity-equal (the very same graph node, for every
`t` — in particular for an upstream layer's output node), with no fresh
symbolic placeholder allocated for the layer's input.  Shown for
`DenoisingAutoencoder`, `Conv1D`, `Conv2D` and `ConvPoolLayer`. -/
theorem c1_inputs_hook_chaining (shape : PyVal) (t : Expr) :
    (daeInit none (some (shape, t))).map DAE.get_inputs = .ok [t] ∧
    (conv1dInit (some (shape, t)) none .vnone (.vints [8, 2, 5])
      (.vint 1)).map Conv1D.get_inputs = .ok [t] ∧
    (conv2dInit (some (shape, t)) none .vnone (.vints [8, 2, 5, 5])
      (.vpair (.vint 1) (.vint 1))).map Conv2D.get_inputs = .ok [t] ∧
    (convPoolInit (some (.vints [10, 4, 27, 27], t))).map ConvPool.get_inputs = .ok [t] :=
  ⟨rfl, rfl, rfl, rfl⟩

/-- C3 counterexample.  The claim says a `params_hook` whose length
differs from the required count — including the empty sequence — always
fails.  In fact `if params_hook:` is false for an empty sequence, so a
`DenoisingAutoencoder` built with `params_hook = []` (three parameters
required) raises nothing and silently allocates fresh parameters. -/
theorem c3_empty_params_hook_accepted :
    (daeInit none none none (some [])).map DAE.get_params =
      .ok [.getWeightsUniform (.vpair (.vint 784) (.vint 1000)) .vnone "W",
           .getBias (.vint 784) .vnone "b0",
           .getBias (.vint 1000) .vnone "b1"] :=
  rfl

/-- C3 amended.  Supplying a *non-empty* `params_hook` of the wrong
length always fails the construction-time count assertion: length ≠ 3
for the denoising autoencoder, ≠ 2 for `Conv1D`, `Conv2D` and
`ConvPoolLayer` with `group = 1`, ≠ 4 for `ConvPoolLayer` with
`group = 2`.  The empty sequence is instead treated as hook-absent. -/
theorem c3_nonempty_wrong_count_fails (ph : List Expr) (hne : ph ≠ []) :
    (ph.length ≠ 3 → isErr (daeInit none none none (some ph)) = true) ∧
    (ph.length ≠ 2 → isErr (conv1dInit none (some ph)
      .vnone (.vints [8, 2, 5]) (.vint 1)) = true) ∧
    (ph.length ≠ 2 → isErr (conv2dInit none (some ph)
      .vnone (.vints [8, 2, 5, 5])
      (.vpair (.vint 1) (.vint 1))) = true) ∧
    (ph.length ≠ 2 → isErr (convPoolInit (some (.vints [10, 4, 27, 27], .ftensor4 "A"))
      .vnone .vnone .vnone .vnone .vnone .vnone .vnone .vnone .vnone .vnone .vnone
      (some ph)) = true) ∧
    (ph.length ≠ 4 → isErr (convPoolInit (some (.vints [10, 4, 27, 27], .ftensor4 "A"))
      .vnone .vnone .vnone .vnone (.vint 2) .vnone .vnone .vnone .vnone .vnone .vnone
      (some ph)) = true) := by
  have hseq : seqTruthy (some ph) = true := by
    simp [seqTruthy, List.isEmpty_iff, hne]
  refine ⟨fun h3 => ?_, fun h2 => ?_, fun h2 => ?_, fun h2 => ?_, fun h4 => ?_⟩
  · simp only [daeInit, hseq, if_true, dif_neg h3]
    rfl
  · simp only [conv1dInit, hseq, bind, Except.bind, pure, dif_neg h2]
    rfl
  · simp only [conv2dInit, hseq, bind, Except.bind, pure, dif_neg h2]
    rfl
  · simp only [convPoolInit, hseq, bind, Except.bind, pure, dif_neg h2]
    rfl
  · simp only [convPoolInit, hseq, bind, Except.bind, pure, dif_neg h4]
    rfl

/-- C3 witness: a one-element hook (off by −1 for the two-parameter
layers, off by −2/−3 for the others) fails everywhere. -/
theorem c3_nonempty_wrong_count_fails_witness :
    isErr (daeInit none none none (some [Expr.fmatrix "p"])) = true ∧
    isErr (conv1dInit none (some [Expr.fmatrix "p"])
      .vnone (.vints [8, 2, 5]) (.vint 1)) = true :=
  ⟨(c3_nonempty_wrong_count_fails [Expr.fmatrix "p"] (by decide)).1 (by decide),
   (c3_nonempty_wrong_count_fails [Expr.fmatrix "p"] (by decide)).2.1 (by decide)⟩

/-- C4 counterexample.  `ConvPoolLayer` with `group = 2` unpacks a
4-element `params_hook` as `(W0, W1, b0, b1)` but stores
`params = [W0, b0, W1, b1]`, so `get_params()` returns the supplied
tensors in a different order than they were supplied. -/
theorem c4_group2_param_order_swapped :
    (convPoolInit (some (.vints [10, 4, 27, 27], .ftensor4 "A"))
      .vnone .vnone .vnone .vnone (.vint 2) .vnone .vnone .vnone .vnone .vnone .vnone
      (some [.fmatrix "p0", .fmatrix "p1", .fmatrix "p2", .fmatrix "p3"])).map
      ConvPool.get_params =
      .ok [.fmatrix "p0", .fmatrix "p2", .fmatrix "p1", .fmatrix "p3"] ∧
    [Expr.fmatrix "p0", .fmatrix "p2", .fmatrix "p1", .fmatrix "p3"] ≠
      [Expr.fmatrix "p0", .fmatrix "p1", .fmatrix "p2", .fmatrix "p3"] :=
  ⟨rfl, by decide⟩

/-- C4 amended.  A correct-length `params_hook` is adopted verbatim
(bit-identical tensors, no copies): the denoising autoencoder, `Conv1D`,
`Conv2D` and `ConvPoolLayer` with `group = 1` return it from
`get_params()` in the supplied order; `ConvPoolLayer` with `group = 2`
returns the same four tensors reordered from the supplied
`(W0, W1, b0, b1)` to `[W0, b0, W1, b1]`. -/
theorem c4_params_hook_round_trip (a b c d : Expr) :
    (daeInit none none none (some [a, b, c])).map DAE.get_params = .ok [a, b, c] ∧
    (conv1dInit none (some [a, b])
      .vnone (.vints [8, 2, 5]) (.vint 1)).map Conv1D.get_params =
      .ok [a, b] ∧
    (conv2dInit none (some [a, b])
      .vnone (.vints [8, 2, 5, 5])
      (.vpair (.vint 1) (.vint 1))).map Conv2D.get_params = .ok [a, b] ∧
    (convPoolInit (some (.vints [10, 4, 27, 27], .ftensor4 "A"))
      .vnone .vnone .vnone .vnone .vnone .vnone .vnone .vnone .vnone .vnone .vnone
      (some [a, b])).map ConvPool.get_params = .ok [a, b] ∧
    (convPoolInit (some (.vints [10, 4, 27, 27], .ftensor4 "A"))
      .vnone .vnone .vnone .vnone (.vint 2) .vnone .vnone .vnone .vnone .vnone .vnone
      (some [a, b, c, d])).map ConvPool.get_params = .ok [a, c, b, d] :=
  ⟨rfl, rfl, rfl, rfl, rfl⟩

/-- C7 (code bug).  The spec says `same` border mode computes the `full`
convolution and centrally crops by `(kernel_extent − 1) // 2`, which is
what `Conv1D` does (second conjunct: kernel extent 5 on input extent 28
crops the full result to `[2, 30)`, preserving extent 28).  `Conv2D`
instead computes `filter_size = filter_shape[2:3]` — a slice of length
one — and then reads `filter_size[1]`, so every `Conv2D` construction
with `border_mode='same'` raises `IndexError` before any cropping. -/
theorem c7_conv2d_same_index_error :
    conv2dInit none none (.vints [1, 3, 28, 28])
      (.vints [4, 3, 5, 5]) (.vpair (.vint 1) (.vint 1))
      .vnone .vnone .vnone .vnone .vnone
      (.vstr "same") = .error "IndexError: index out of range" ∧
    (conv1dInit none none (.vints [1, 3, 28])
      (.vints [4, 3, 5]) (.vint 1)
      .vnone .vnone .vnone .vnone .vnone
      (.vstr "same")).map Conv1D.get_outputs =
      .ok (.applyAct (.vfun "rectifier")
        (.addBias1d
          (.sliceAxis2
            (.convOp (.vfun "conv1d_mc0") (.ftensor3 "X")
              (.getWeightsUniform (.vints [4, 3, 5]) (.vstr "montreal") "W")
              (.vtup1 (.vint 1)) (.vints [1, 3, 28]) (.vints [4, 3, 5]) (.vstr "full"))
            2 30)
          (.getBias (.vtup1 (.vint 4)) .vnone "b"))) :=
  ⟨rfl, rfl⟩

/-- C9.  When a correct-length `params_hook` is supplied to `Conv1D` or
`Conv2D`, the `weights_init` scheme is never examined: construction
succeeds with exactly the supplied parameters for *any* explicit
`weights_init` value `wi`, even under a configuration whose
`weights_init` is the unrecognized string `"foo"` — which, without the
hook, makes the same construction raise (last two conjuncts) — and no
fresh weights or bias are allocated. -/
theorem c9_params_hook_skips_weights_init (W b : Expr) (wi : PyVal) :
    (conv1dInit none (some [W, b]) .vnone (.vints [8, 2, 5]) (.vint 1)
      wi .vnone .vnone .vnone .vnone .vnone .vnone .vnone
      (some [("weights_init", .vstr "foo")])).map Conv1D.get_params =
      .ok [W, b] ∧
    (conv2dInit none (some [W, b]) .vnone (.vints [8, 2, 5, 5])
      (.vpair (.vint 1) (.vint 1))
      wi .vnone .vnone .vnone .vnone .vnone .vnone .vnone
      (some [("weights_init", .vstr "foo")])).map Conv2D.get_params =
      .ok [W, b] ∧
    isErr (conv1dInit none none .vnone (.vints [8, 2, 5]) (.vint 1)
      .vnone .vnone .vnone .vnone .vnone .vnone .vnone .vnone
      (some [("weights_init", .vstr "foo")])) = true ∧
    isErr (conv2dInit none none .vnone (.vints [8, 2, 5, 5])
      (.vpair (.vint 1) (.vint 1))
      .vnone .vnone .vnone .vnone .vnone .vnone .vnone .vnone
      (some [("weights_init", .vstr "foo")])) = true :=
  ⟨rfl, rfl, rfl, rfl⟩

/-- C10.  `ConvPoolLayer` with `group = 2` integer-halves its stored
`filter_shape[0]`, `filter_shape[1]`, `input_shape[0]` and
`input_shape[1]` in place before allocating parameters: each allocated
weight tensor is shaped with the halved filter count and channel count,
each bias has length `filter_shape[0] / 2`, and the recorded
`input_shape` halves the batch axis (axis 0) as well as the channel
axis (axis 1). -/
theorem c10_group2_halves_shapes (f0 f1 f2 f3 i0 i1 i2 i3 : Int) :
    (convPoolInit (some (.vints [i0, i1, i2, i3], .ftensor4 "A"))
      .vnone (.vints [f0, f1, f2, f3]) .vnone .vnone (.vint 2)).map
      (fun cp => (cp.filter_shape, cp.input_shape, cp.get_params)) =
      .ok ([Int.fdiv f0 2, Int.fdiv f1 2, f2, f3],
           [Int.fdiv i0 2, Int.fdiv i1 2, i2, i3],
           [.getWeightsGaussian (.vints [Int.fdiv f0 2, Int.fdiv f1 2, f2, f3]) .vnone .vnone "W0",
            .getBias (.vint (Int.fdiv f0 2)) .vnone "b0",
            .getWeightsGaussian (.vints [Int.fdiv f0 2, Int.fdiv f1 2, f2, f3]) .vnone .vnone "W1",
            .getBias (.vint (Int.fdiv f0 2)) .vnone "b1"]) :=
  rfl

/-- C2 counterexample.  An explicitly supplied but falsy argument is
NOT used: `DenoisingAutoencoder(corruption_level=0)` corrupts with the
default level 0.4, because resolution is the Python `or` idiom.  And an
explicit `weights_init='uniform'` differing from a configured
`'gaussian'` does not win either: the `uniform` branch of
`Conv1D.__init__` tests `self.args.get('weights_init')`, so the
construction raises instead of using the explicit scheme. -/
theorem c2_falsy_explicit_ignored :
    (daeInit none none none none .vnone .vnone (.vfloat 0)).map
      (fun d => noiseLevels d.get_train_cost) = .ok [.vfloat (2/5)] ∧
    PyVal.vfloat (2/5) ≠ .vfloat 0 ∧
    isErr (conv1dInit none none .vnone (.vints [8, 2, 5]) (.vint 1)
      (.vstr "uniform") .vnone .vnone .vnone .vnone .vnone .vnone .vnone
      (some [("weights_init", .vstr "gaussian")])) = true :=
  ⟨rfl, by simp only [ne_eq, PyVal.vfloat.injEq]; norm_num, rfl⟩

/-- C2 amended.  For the options the layers resolve with the
`x or self.args.get(x)` idiom (`corruption_level`, sizes, shapes,
activations, cost, stride, border mode, `weights_init` and friends,
`group`, pooling), a *truthy* explicit constructor argument takes
precedence over a supplied configuration value, which takes precedence
over the per-layer default; a falsy explicit argument (such as
`corruption_level = 0`) is treated as absent by the `or` idiom and
falls through to configuration, then defaults.  Two options escape this
scheme.  `bias_init` in `Conv1D`/`Conv2D`/`ConvPoolLayer` is never
or-resolved: the raw argument goes straight to `get_bias`, so an
explicit falsy `bias_init = 0.0` IS used verbatim (fourth conjunct) and
a configured `bias_init` is never consulted — even with no explicit
argument the bias is built from `None`, not the configured 0.7 (fifth
conjunct).  And the `Conv1D`/`Conv2D` uniform-weights branch tests the
*configured* `weights_init` rather than the resolved one, so an
explicit `'uniform'` over a configured `'gaussian'` raises instead of
initializing (third conjunct). -/
theorem c2_amended_option_precedence (c v : PyVal) :
    (truthy c = true →
      (daeInit (some [("corruption_level", v)]) none none none
        .vnone .vnone c).map (fun d => noiseLevels d.get_train_cost) = .ok [c] ∧
      (daeInit none none none none .vnone .vnone c).map
        (fun d => noiseLevels d.get_train_cost) = .ok [c]) ∧
    (truthy c = false →
      (daeInit (some [("corruption_level", v)]) none none none
        .vnone .vnone c).map (fun d => noiseLevels d.get_train_cost) = .ok [v] ∧
      (daeInit none none none none .vnone .vnone c).map
        (fun d => noiseLevels d.get_train_cost) = .ok [.vfloat (2/5)]) ∧
    isErr (conv1dInit none none .vnone (.vints [8, 2, 5]) (.vint 1)
      (.vstr "uniform") .vnone .vnone .vnone .vnone .vnone .vnone .vnone
      (some [("weights_init", .vstr "gaussian")])) = true ∧
    (conv1dInit none none .vnone (.vints [8, 2, 5]) (.vint 1)
      .vnone .vnone .vnone .vnone (.vfloat 0)).map Conv1D.get_params =
      .ok [.getWeightsUniform (.vints [8, 2, 5]) (.vstr "montreal") "W",
           .getBias (.vtup1 (.vint 8)) (.vfloat 0) "b"] ∧
    (conv1dInit none none .vnone (.vints [8, 2, 5]) (.vint 1)
      .vnone .vnone .vnone .vnone .vnone .vnone .vnone .vnone
      (some [("bias_init", .vfloat (7/10))])).map Conv1D.get_params =
      .ok [.getWeightsUniform (.vints [8, 2, 5]) (.vstr "montreal") "W",
           .getBias (.vtup1 (.vint 8)) .vnone "b"] ∧
    PyVal.vnone ≠ .vfloat (7/10) := by
  refine ⟨fun h => ⟨?_, ?_⟩, fun h => ⟨?_, ?_⟩, rfl, rfl, rfl, by decide⟩
  · simp only [daeInit, pyOr_pos h]; rfl
  · simp only [daeInit, pyOr_pos h]; rfl
  · simp only [daeInit, pyOr_neg h]; rfl
  · simp only [daeInit, pyOr_neg h]; rfl

/-- C2 witness: a truthy explicit `corruption_level = 0.5` beats the
configured 0.9; a falsy explicit `corruption_level = 0` loses to it. -/
theorem c2_amended_option_precedence_witness :
    (daeInit (some [("corruption_level", .vfloat (9/10))]) none none none
      .vnone .vnone (.vfloat (1/2))).map
      (fun d => noiseLevels d.get_train_cost) = .ok [.vfloat (1/2)] ∧
    (daeInit (some [("corruption_level", .vfloat (9/10))]) none none none
      .vnone .vnone (.vfloat 0)).map
      (fun d => noiseLevels d.get_train_cost) = .ok [.vfloat (9/10)] :=
  ⟨((c2_amended_option_precedence (.vfloat (1/2)) (.vfloat (9/10))).1
      (by norm_num [PyVal.truthy])).1,
   ((c2_amended_option_precedence (.vfloat 0) (.vfloat (9/10))).2.1
      (by norm_num [PyVal.truthy])).1⟩

/-- C5.  For every constructed denoising autoencoder the training path
is: hiddens = `hidden_activation(corrupted_input · W + b1)` with
`corrupted_input = salt_and_pepper(x, corruption_level)`, the
reconstruction = `visible_activation(hiddens · Wᵀ + b0)` re-using the
transposed *same* weight matrix `W` (tied weights — no separate decode
weight appears), and `get_train_cost()` is the configured cost function
applied to that reconstruction and the original uncorrupted input `x`. -/
theorem c5_dae_training_path (W b0 b1 : Expr) (cl ha va cf : PyVal)
    (hcl : truthy cl = true) (hha : truthy ha = true)
    (hva : truthy va = true) (hcf : truthy cf = true) :
    (daeInit none none none (some [W, b0, b1]) .vnone .vnone
      cl ha va cf).map DAE.get_train_cost =
      .ok (.applyCost cf
        (.applyAct va (.add (.dot (.applyAct ha
          (.add (.dot (.saltAndPepper (.fmatrix "X") cl) W) b1)) (.transpose W)) b0))
        (.fmatrix "X")) := by
  simp only [daeInit, pyOr_pos hcl, pyOr_pos hha, pyOr_pos hva, pyOr_pos hcf]
  rfl

/-- C5 witness at the layer's default option values. -/
theorem c5_dae_training_path_witness :
    (daeInit none none none (some [.fmatrix "W", .fmatrix "b0", .fmatrix "b1"])
      .vnone .vnone (.vfloat (2/5)) (.vstr "tanh") (.vstr "sigmoid")
      (.vstr "binary_crossentropy")).map DAE.get_train_cost =
      .ok (.applyCost (.vstr "binary_crossentropy")
        (.applyAct (.vstr "sigmoid") (.add (.dot (.applyAct (.vstr "tanh")
          (.add (.dot (.saltAndPepper (.fmatrix "X") (.vfloat (2/5))) (.fmatrix "W"))
            (.fmatrix "b1"))) (.transpose (.fmatrix "W"))) (.fmatrix "b0")))
        (.fmatrix "X")) :=
  c5_dae_training_path (.fmatrix "W") (.fmatrix "b0") (.fmatrix "b1")
    (.vfloat (2/5)) (.vstr "tanh") (.vstr "sigmoid") (.vstr "binary_crossentropy")
    (by norm_num [PyVal.truthy]) (by decide) (by decide) (by decide)

/-- C6.  A `hiddens_hook` affects only the prediction path: the
training cost is still built from hiddens computed on the noised input
`salt_and_pepper(X, 0.4)` — the hooked tensor `ht` does not occur in
it — while the compiled predict function declares the hooked
hidden-shaped tensor `ht` as its input and its output decodes `ht`
directly, applying no corruption (it stays noise-free whenever `ht`
is). -/
theorem c6_hiddens_hook_prediction_only (hshape : PyVal) (ht : Expr)
    (hnf : noiseFree ht = true) :
    (daeInit none none (some (hshape, ht))).map
      (fun d => (d.get_train_cost, d.f_predict_inputs, d.f_predict_outputs,
                 noiseFree d.f_predict_outputs)) =
      .ok (.applyCost (.vstr "binary_crossentropy")
             (.applyAct (.vstr "sigmoid")
               (.add (.dot (.applyAct (.vstr "tanh")
                 (.add (.dot (.saltAndPepper (.fmatrix "X") (.vfloat (2/5)))
                   (.getWeightsUniform (.vpair (.vint 784) hshape) .vnone "W"))
                   (.getBias hshape .vnone "b1")))
                 (.transpose (.getWeightsUniform (.vpair (.vint 784) hshape) .vnone "W")))
                 (.getBias (.vint 784) .vnone "b0")))
             (.fmatrix "X"),
           [ht],
           .applyAct (.vstr "sigmoid")
             (.add (.dot ht (.transpose (.getWeightsUniform (.vpair (.vint 784) hshape) .vnone "W")))
               (.getBias (.vint 784) .vnone "b0")),
           true) := by
  have hlvl : noiseLevels ht = [] := by
    simpa [noiseFree, List.isEmpty_iff] using hnf
  have hD : daeInit none none (some (hshape, ht)) =
      .ok { inputs := [.fmatrix "X"],
            params := [.getWeightsUniform (.vpair (.vint 784) hshape) .vnone "W",
                       .getBias (.vint 784) .vnone "b0",
                       .getBias hshape .vnone "b1"],
            hiddens := ht,
            recon_predict := .applyAct (.vstr "sigmoid")
              (.add (.dot ht (.transpose (.getWeightsUniform (.vpair (.vint 784) hshape) .vnone "W")))
                (.getBias (.vint 784) .vnone "b0")),
            train_cost := .applyCost (.vstr "binary_crossentropy")
              (.applyAct (.vstr "sigmoid")
                (.add (.dot (.applyAct (.vstr "tanh")
                  (.add (.dot (.saltAndPepper (.fmatrix "X") (.vfloat (2/5)))
                    (.getWeightsUniform (.vpair (.vint 784) hshape) .vnone "W"))
                    (.getBias hshape .vnone "b1")))
                  (.transpose (.getWeightsUniform (.vpair (.vint 784) hshape) .vnone "W")))
                  (.getBias (.vint 784) .vnone "b0")))
              (.fmatrix "X"),
            f_predict_inputs := [ht],
            f_predict_outputs := .applyAct (.vstr "sigmoid")
              (.add (.dot ht (.transpose (.getWeightsUniform (.vpair (.vint 784) hshape) .vnone "W")))
                (.getBias (.vint 784) .vnone "b0")) } := rfl
  rw [hD]
  simp only [Except.map, DAE.get_train_cost, noiseFree]
  simp only [noiseLevels, List.append_nil, List.nil_append, hlvl]
  rfl

/-- C6 witness at a concrete noise-free hooked tensor. -/
theorem c6_hiddens_hook_prediction_only_witness :
    (daeInit none none (some (.vint 500, .fmatrix "H"))).map
      (fun d => (d.get_train_cost, d.f_predict_inputs, d.f_predict_outputs,
                 noiseFree d.f_predict_outputs)) =
      .ok (.applyCost (.vstr "binary_crossentropy")
             (.applyAct (.vstr "sigmoid")
               (.add (.dot (.applyAct (.vstr "tanh")
                 (.add (.dot (.saltAndPepper (.fmatrix "X") (.vfloat (2/5)))
                   (.getWeightsUniform (.vpair (.vint 784) (.vint 500)) .vnone "W"))
                   (.getBias (.vint 500) .vnone "b1")))
                 (.transpose (.getWeightsUniform (.vpair (.vint 784) (.vint 500)) .vnone "W")))
                 (.getBias (.vint 784) .vnone "b0")))
             (.fmatrix "X"),
           [.fmatrix "H"],
           .applyAct (.vstr "sigmoid")
             (.add (.dot (.fmatrix "H")
               (.transpose (.getWeightsUniform (.vpair (.vint 784) (.vint 500)) .vnone "W")))
               (.getBias (.vint 784) .vnone "b0")),
           true) :=
  c6_hiddens_hook_prediction_only (.vint 500) (.fmatrix "H") rfl

/-- C8 counterexample.  `group = 0` is falsy, so `group or
self.args.get('group')` resolves to the default 1 and the construction
succeeds instead of failing validation; and with `group = 2` and the
odd requested filter count 5, the two half-group convolutions carry
`5 / 2 = 2` filters each, so the concatenated output has 4 channels,
not `filter_shape[0] = 5`. -/
theorem c8_group_zero_and_odd_filters :
    (convPoolInit (some (.vints [10, 4, 27, 27], .ftensor4 "A"))
      .vnone .vnone .vnone .vnone (.vint 0)).map
      (fun cp => cp.group) = .ok 1 ∧
    (convPoolInit (some (.vints [10, 4, 27, 27], .ftensor4 "A"))
      .vnone (.vints [5, 4, 3, 3]) .vnone .vnone (.vint 2)).map
      (fun cp => channelsOf cp.get_outputs) = .ok (some 4) ∧
    (4 : Int) ≠ 5 :=
  ⟨rfl, rfl, by decide⟩

/-- C8 amended.  A *truthy* group value other than 1 or 2 fails the
construction-time assertion (`group = 0` instead falls back to the
configured default).  With `group = 2` the input channel axis is split
at `channel / 2`, two independent convolutions with the independent
pairs `(W0, b0)` and `(W1, b1)` run on the two halves and are
concatenated along the channel axis, so the output channel count is
`2 · (filter_shape[0] / 2)` — equal to the requested `filter_shape[0]`
exactly when that count is even. -/
theorem c8_amended_grouped_convolution (f0 f1 f2 f3 : Int) (g : Int)
    (hg0 : g ≠ 0) (hg1 : g ≠ 1) (hg2 : g ≠ 2) :
    isErr (convPoolInit (some (.vints [10, 4, 27, 27], .ftensor4 "A"))
      .vnone .vnone .vnone .vnone (.vint g)) = true ∧
    (convPoolInit (some (.vints [10, 4, 27, 27], .ftensor4 "A"))
      .vnone (.vints [f0, f1, f2, f3]) .vnone .vnone (.vint 2)).map
      (fun cp => (channelsOf cp.get_outputs, cp.get_outputs)) =
      .ok (some (Int.fdiv f0 2 + Int.fdiv f0 2),
        .maxPool
          (.applyAct (.vstr "rectifier")
            (.concatChan
              (.addBias2d
                (.convOp (.vfun "conv2d") (.sliceChan (.ftensor4 "A") none (some 2))
                  (.getWeightsGaussian (.vints [Int.fdiv f0 2, Int.fdiv f1 2, f2, f3])
                    .vnone .vnone "W0")
                  (.vpair (.vint 4) (.vint 4)) .vnone .vnone (.vpair (.vint 0) (.vint 0)))
                (.getBias (.vint (Int.fdiv f0 2)) .vnone "b0"))
              (.addBias2d
                (.convOp (.vfun "conv2d") (.sliceChan (.ftensor4 "A") (some 2) none)
                  (.getWeightsGaussian (.vints [Int.fdiv f0 2, Int.fdiv f1 2, f2, f3])
                    .vnone .vnone "W1")
                  (.vpair (.vint 4) (.vint 4)) .vnone .vnone (.vpair (.vint 0) (.vint 0)))
                (.getBias (.vint (Int.fdiv f0 2)) .vnone "b1"))))
          (.vpair (.vint 3) (.vint 3)) (.vpair (.vint 2) (.vint 2))) ∧
    (∀ k : Int, f0 = 2 * k → Int.fdiv f0 2 + Int.fdiv f0 2 = f0) := by
  refine ⟨?_, rfl, fun k hk => ?_⟩
  · have ht : truthy (.vint g) = true := by simp [truthy, hg0]
    have h12 : (decide (PyVal.vint g = PyVal.vint 1) ||
        decide (PyVal.vint g = PyVal.vint 2)) = false := by
      simp [PyVal.vint.injEq, hg1, hg2]
    simp only [convPoolInit, pyOr_pos ht]
    simp only [bind, Except.bind, h12]
    rfl
  · subst hk
    rw [Int.mul_fdiv_cancel_left k (by norm_num)]
    ring

/-- C8 witness: `group = 3` fails, and an even filter count 8 gives
`4 + 4 = 8` output channels. -/
theorem c8_amended_grouped_convolution_witness :
    isErr (convPoolInit (some (.vints [10, 4, 27, 27], .ftensor4 "A"))
      .vnone .vnone .vnone .vnone (.vint 3)) = true ∧
    Int.fdiv 8 2 + Int.fdiv 8 2 = 8 :=
  ⟨(c8_amended_grouped_convolution 8 4 3 3 3 (by decide) (by decide) (by decide)).1,
   (c8_amended_grouped_convolution 8 4 3 3 3 (by decide) (by decide) (by decide)).2.2
     4 (by norm_num)⟩

end OpenDeep
